import Mathlib

/-!
Verification of the protocol-bridge and credential-lifecycle core of the
mcp-http-bridge server.  JavaScript source functions are shallowly embedded
as executable Lean definitions: JS strings become `String` (or `List Char`
where character-level splitting matters), fallible calls become
`Option`/`Except`, database tables become lists of records, and network
I/O outcomes become explicit oracle parameters.  JS truthiness of a string
is embedded as the test against the empty string `""`.
-/

namespace McpBridge

/-! ## JS string helpers

`strContains s pat` embeds JavaScript `s.includes(pat)` (substring test);
`jsStartsWith` embeds `s.startsWith(pat)`. -/

/-- Boolean test that `pat` occurs as a contiguous substring of `s`,
working on the underlying character lists. -/
def charsContain (pat : List Char) : List Char → Bool
  | [] => pat.isEmpty
  | c :: rest => pat.isPrefixOf (c :: rest) || charsContain pat rest

/-- Embedding of JavaScript `s.includes(pat)`. -/
def strContains (s pat : String) : Bool :=
  charsContain pat.toList s.toList

/-- Embedding of JavaScript `s.startsWith(pat)`. -/
def jsStartsWith (s pat : String) : Bool :=
  pat.toList.isPrefixOf s.toList

/-- Embedding of JavaScript `s.toLowerCase()`, character by character
(the messages and tokens involved are ASCII). -/
def jsToLower (s : String) : String :=
  String.mk (s.toList.map Char.toLower)

/-! ## Credential resolution (`MCPClient._getAccessToken`, src/mcp-client.js)

A stored customer-token record as returned by the SQLite lookups
`getCustomerToken` / `getCustomerTokenByShop` (db.js).  Only the
`access_token` field is inspected by the resolver. -/

structure TokenRecord where
  access_token : String
deriving Repr, DecidableEq

/-- Embedding of `MCPClient._getAccessToken` (src/mcp-client.js lines
162-195).  `lookupSession` and `lookupShop` embed the database lookups
`getCustomerToken(sessionId)` and `getCustomerTokenByShop(shopId)`;
`optAccessToken`/`optSessionId` are the fields of the `options` call
context, `shopId`/`instanceToken` the fields of the client instance.
A JS-truthiness test `if (x)` on a string becomes `x ≠ ""`. -/
def getAccessToken (lookupSession lookupShop : String → Option TokenRecord)
    (optAccessToken optSessionId shopId instanceToken : String) : Option String :=
  -- 1. token supplied directly in the call options
  if optAccessToken ≠ "" then some optAccessToken
  else
    -- 2. database lookup by session id
    let step2 : Option String :=
      if optSessionId ≠ "" then
        match lookupSession optSessionId with
        | some rec => if rec.access_token ≠ "" then some rec.access_token else none
        | none => none
      else none
    match step2 with
    | some t => some t
    | none =>
      -- 3. database lookup by shop id
      let step3 : Option String :=
        if shopId ≠ "" then
          match lookupShop shopId with
          | some rec => if rec.access_token ≠ "" then some rec.access_token else none
          | none => none
        else none
      match step3 with
      | some t => some t
      | none =>
        -- 4. token configured on the instance
        if instanceToken ≠ "" then some instanceToken else none

/-- Embedding of the Bearer-prefix normalization applied to a resolved
token in `_callCustomerTool` / `connectToCustomerServer`:
`if (token && !token.toLowerCase().startsWith('bearer '))` prepend
`"Bearer "`. -/
def bearerNormalize (token : String) : String :=
  if token ≠ "" && ! jsStartsWith (jsToLower token) "bearer " then
    "Bearer " ++ token
  else token

/-- Authorization header value sent on a customer provider call, given the
resolver output (`none` means the no-token path is taken instead). -/
def authHeaderOfToken : Option String → Option String
  | none => none
  | some t => some (bearerNormalize t)

/-! ## OAuth `state` composition and parsing (auth.js / routes/auth.js)

`generateAuthUrl` composes the OAuth `state` as
`` state = `${sessionId}-${shopId}` `` (auth.js line 82); the callback
recovers the two parts with `const [sessionId, shopId] = state.split('-')`
(routes/auth.js line 111).  Characters are modelled explicitly, so the
split is embedded on `List Char`. -/

/-- Embedding of `` `${sessionId}-${shopId}` `` on character lists. -/
def buildState (sessionId shopId : List Char) : List Char :=
  sessionId ++ '-' :: shopId

/-- Embedding of JavaScript `state.split('-')`: splits at every dash,
keeping empty fragments, and yields `[""]` on the empty string. -/
def splitOnDash : List Char → List (List Char)
  | [] => [[]]
  | c :: rest =>
    match splitOnDash rest with
    | [] => [[]]
    | w :: ws => if c = '-' then [] :: w :: ws else (c :: w) :: ws

/-- Embedding of the callback's destructuring
`const [sessionId, shopId] = state.split('-')`; a missing element is
JavaScript `undefined`, modelled as `none`. -/
def parseState (state : List Char) : Option (List Char) × Option (List Char) :=
  ((splitOnDash state).get? 0, (splitOnDash state).get? 1)

theorem splitOnDash_cons (c : Char) (rest : List Char) :
    splitOnDash (c :: rest) =
      match splitOnDash rest with
      | [] => [[]]
      | w :: ws => if c = '-' then [] :: w :: ws else (c :: w) :: ws := rfl

theorem splitOnDash_no_dash {l : List Char} (h : '-' ∉ l) :
    splitOnDash l = [l] := by
  induction l with
  | nil => rfl
  | cons c rest ih =>
    have hc : c ≠ '-' := fun hc => h (hc ▸ List.mem_cons_self c rest)
    have hrest : '-' ∉ rest := fun hm => h (List.mem_cons_of_mem c hm)
    rw [splitOnDash_cons, ih hrest]
    simp [hc]

theorem splitOnDash_buildState {sessionId shopId : List Char}
    (hs : '-' ∉ sessionId) (hp : '-' ∉ shopId) :
    splitOnDash (buildState sessionId shopId) = [sessionId, shopId] := by
  induction sessionId with
  | nil =>
    show splitOnDash ('-' :: shopId) = [[], shopId]
    rw [splitOnDash_cons, splitOnDash_no_dash hp]
    simp
  | cons c rest ih =>
    have hc : c ≠ '-' := fun hc => hs (hc ▸ List.mem_cons_self c rest)
    have hrest : '-' ∉ rest := fun hm => hs (List.mem_cons_of_mem c hm)
    show splitOnDash (c :: buildState rest shopId) = [c :: rest, shopId]
    rw [splitOnDash_cons, ih hrest]
    simp [hc]

/-! ## Session-terminated detection and bounded retry
(`MCPClient._isSessionTerminatedError` / `_callCustomerTool`,
enhanced client, src/unnamed/part_001 lines 301-397) -/

/-- Error object thrown by `_makeJsonRpcRequest`: `message` always set,
`code` set only for JSON-RPC level errors. -/
structure RpcError where
  message : String
  code : Option Int
deriving Repr, DecidableEq

/-- Fixed signature list from `_isSessionTerminatedError`. -/
def sessionTerminatedSignatures : List String :=
  ["session terminated", "session expired", "session not found",
   "invalid session", "session closed"]

/-- Embedding of `MCPClient._isSessionTerminatedError` (part_001 lines
363-386): the lowercased message contains one of the fixed signatures, or
the code is -32600 and the message mentions "session". -/
def isSessionTerminatedError (e : RpcError) : Bool :=
  let message := jsToLower e.message
  if sessionTerminatedSignatures.any (fun p => strContains message p) then
    true
  else
    match e.code with
    | some c => decide (c = -32600) && strContains message "session"
    | none => false

/-- Outcome of one upstream `tools/call` network attempt. -/
inductive CallOutcome (α : Type) where
  | ok (r : α)
  | err (e : RpcError)

/-- Oracle describing the upstream customer endpoint during one
`_callCustomerTool` invocation: `callOutcome k` is the outcome of the
k-th `tools/call` request issued, `reconnectOutcome` the outcome of the
`connectToCustomerServer` (re-run `tools/list`) step inside recovery. -/
structure CustomerCallEnv (α : Type) where
  callOutcome : Nat → CallOutcome α
  reconnectOutcome : Except RpcError Unit

/-- Observable trace of a `_callCustomerTool` invocation: final result,
number of `tools/call` requests issued, and number of recovery cycles
(clear cached customer tools + reconnect) performed. -/
structure CallTrace (α : Type) where
  result : Except RpcError α
  attempts : Nat
  recoveries : Nat

/-- Body of `_callCustomerTool` specialized to `options._isRetry = true`
(part_001 lines 301-355): the recovery branch of the catch is skipped
because of the `!options._isRetry` guard, so the attempt's own outcome is
returned or rethrown as is. -/
def callCustomerToolAsRetry {α} (env : CustomerCallEnv α) (k : Nat) : CallTrace α :=
  match env.callOutcome k with
  | .ok r => ⟨.ok r, 1, 0⟩
  | .err e => ⟨.error e, 1, 0⟩

/-- Embedding of `_callCustomerTool` entered with `options._isRetry`
unset (part_001 lines 301-355).  On a session-terminated failure it
clears the cached customer tools, reconnects, and re-issues the call with
`_isRetry: true`; any failure of the reconnect or of the retried call
surfaces the original error (the catch at lines 348-351 rethrows
`error`). -/
def callCustomerTool {α} (env : CustomerCallEnv α) : CallTrace α :=
  match env.callOutcome 0 with
  | .ok r => ⟨.ok r, 1, 0⟩
  | .err e =>
    if isSessionTerminatedError e then
      match env.reconnectOutcome with
      | .error _ => ⟨.error e, 1, 1⟩
      | .ok _ =>
        let t := callCustomerToolAsRetry env 1
        ⟨match t.result with
          | .ok r => Except.ok r
          | .error _ => Except.error e,
         1 + t.attempts, 1 + t.recoveries⟩
    else ⟨.error e, 1, 0⟩

/-- Body of `connectToCustomerServer` entered with
`options._isRetry = true` (part_001 lines 87-151): the recovery branch of
the catch (lines 132-147) is skipped, so the k-th `tools/list` attempt's
own outcome is returned or rethrown as is. -/
def connectCustomerListAsRetry {α} (listOutcome : Nat → CallOutcome α)
    (k : Nat) : CallTrace α :=
  match listOutcome k with
  | .ok r => ⟨.ok r, 1, 0⟩
  | .err e => ⟨.error e, 1, 0⟩

/-- Embedding of `connectToCustomerServer` entered with
`options._isRetry` unset (part_001 lines 87-151): on a session-terminated
`tools/list` failure it clears the cached customer tools, waits a fixed
backoff, and re-runs itself with `_isRetry: true`; a retry failure
rethrows the original error. -/
def connectCustomerList {α} (listOutcome : Nat → CallOutcome α) : CallTrace α :=
  match listOutcome 0 with
  | .ok r => ⟨.ok r, 1, 0⟩
  | .err e =>
    if isSessionTerminatedError e then
      let t := connectCustomerListAsRetry listOutcome 1
      ⟨match t.result with
        | .ok r => Except.ok r
        | .error _ => Except.error e,
       1 + t.attempts, 1 + t.recoveries⟩
    else ⟨.error e, 1, 0⟩

/-! ## PKCE code-verifier store (db.js `getCodeVerifier`) -/

/-- Row of the `code_verifiers` table.  `id` is the primary key, `state`
carries a UNIQUE constraint, `expiresAt` the absolute expiry instant. -/
structure VerifierRecord where
  id : Nat
  state : String
  verifier : String
  expiresAt : Nat
deriving Repr, DecidableEq

/-- Embedding of db.js `getCodeVerifier` (part_001 lines 591-606): select
the first row whose `state` matches and whose expiry lies in the future,
and, when found, delete that row by primary key before returning it.
Returns the looked-up record and the table after the call. -/
def getCodeVerifier (db : List VerifierRecord) (state : String) (now : Nat) :
    Option VerifierRecord × List VerifierRecord :=
  match db.find? (fun r => r.state == state && decide (now < r.expiresAt)) with
  | none => (none, db)
  | some r => (some r, db.filter (fun x => x.id != r.id))

/-- Token endpoint response used by the OAuth callback. -/
structure TokenExchangeResult where
  access_token : String
  expires_in : Nat
deriving Repr, DecidableEq

/-- Outcome of one `GET /auth/callback` handling. -/
inductive CallbackOutcome where
  | missingParams
  | invalidState
  | exchangeFailed (msg : String)
  | success (sessionId shopId accessToken : String)
deriving Repr, DecidableEq

/-- Embedding of the `/auth/callback` route (src/routes/auth.js lines
74-176) after the upstream-error check: reject missing `code`/`state`
(JS truthiness on strings), split `state` on dashes, consume the code
verifier (single use), then run the token exchange (modelled as the
oracle `exchange code verifier`); an absent verifier record yields the
"Session expired" 400 page, modelled as `invalidState`.  The returned
table is the verifier table after the call. -/
def authCallback (db : List VerifierRecord) (code state : String) (now : Nat)
    (exchange : String → String → Except String TokenExchangeResult) :
    CallbackOutcome × List VerifierRecord :=
  if code = "" || state = "" then (.missingParams, db)
  else
    let parts := splitOnDash state.toList
    let sessionId := String.mk ((parts.get? 0).getD [])
    let shopId := String.mk ((parts.get? 1).getD [])
    match getCodeVerifier db state now with
    | (none, db') => (.invalidState, db')
    | (some rec, db') =>
      match exchange code rec.verifier with
      | .error m => (.exchangeFailed m, db')
      | .ok td => (.success sessionId shopId td.access_token, db')

/-! ## Tool catalog aggregation and dispatch (MCPClient) -/

/-- Formatted tool entry as produced by `_formatToolsData`; the schema
payload is opaque here. -/
structure ToolDescriptor where
  name : String
  description : String
  input_schema : String
deriving Repr, DecidableEq

/-- The three tool lists held by an `MCPClient` instance. -/
structure ClientState where
  storefrontTools : List ToolDescriptor
  customerTools : List ToolDescriptor
  tools : List ToolDescriptor
deriving Repr, DecidableEq

/-- Owner of a tool name chosen by `callTool`. -/
inductive Provider where
  | storefront
  | customer
deriving Repr, DecidableEq

/-- Embedding of the success path of `connectToStorefrontServer`
(part_001 lines 68-71): set `storefrontTools` to the new batch and append
it to `tools`. -/
def connectStorefrontUpdate (s : ClientState) (newTools : List ToolDescriptor) :
    ClientState :=
  { s with storefrontTools := newTools, tools := s.tools ++ newTools }

/-- Embedding of the success path of `connectToCustomerServer` in the
enhanced client (part_001 lines 116-124): drop every aggregate entry
whose name is in the previous customer batch, then install and append the
new batch. -/
def connectCustomerUpdate (s : ClientState) (newTools : List ToolDescriptor) :
    ClientState :=
  let oldCustomerToolNames := s.customerTools.map ToolDescriptor.name
  let remaining := s.tools.filter (fun t => ! oldCustomerToolNames.contains t.name)
  { storefrontTools := s.storefrontTools,
    customerTools := newTools,
    tools := remaining ++ newTools }

/-- Embedding of the ownership test at the head of `callTool` (part_001
lines 238-244): the storefront list is consulted first, then the customer
list; a name in neither yields `none` (the code then attempts a reconnect
and finally throws "Tool not found", which needs no further modelling for
the ownership claims). -/
def dispatchTool (s : ClientState) (name : String) : Option Provider :=
  if s.storefrontTools.any (fun t => t.name == name) then some .storefront
  else if s.customerTools.any (fun t => t.name == name) then some .customer
  else none

/-- Embedding of `connectAll` (src/mcp-client.js lines 133-152): reset
the three lists, then run both connects under `Promise.allSettled`, so a
rejected connect leaves its lists empty and never propagates; each
success applies its update.  The two awaited mutations are modelled in
program order (storefront first); the customer success path of this file
appends without any deduplication (lines 116-118). -/
def connectAllModel
    (storefrontOutcome customerOutcome : Except RpcError (List ToolDescriptor)) :
    ClientState :=
  let s0 : ClientState := ⟨[], [], []⟩
  let s1 := match storefrontOutcome with
    | .ok ts => connectStorefrontUpdate s0 ts
    | .error _ => s0
  match customerOutcome with
  | .ok ts => { s1 with customerTools := ts, tools := s1.tools ++ ts }
  | .error _ => s1

/-! ## Transport gateway (mcp routes, part_001 lines 742-1301) -/

/-- JSON-RPC envelope fields read by the dispatchers; `id` is `none` for
a JS `undefined`/`null` id. -/
structure Envelope where
  jsonrpc : String
  id : Option Int
  method : String
deriving Repr, DecidableEq

/-- Result value produced by a method handler. -/
inductive McpResult where
  | initResult (protocolVersion serverName serverVersion : String)
  | emptyResult
  | toolsList (tools : List ToolDescriptor)
  | toolText (text : String)
deriving Repr, DecidableEq

/-- JSON-RPC object written to a session's SSE event channel by
`sendSseMessage`. -/
inductive SseMessage where
  | response (id : Option Int) (result : McpResult)
  | errorResponse (id : Option Int) (code : Int) (message : String)
deriving Repr, DecidableEq

/-- Status line and body of the HTTP response to the POST itself. -/
structure HttpReply where
  status : Nat
  body : String
deriving Repr, DecidableEq

/-- Embedding of the JS expression `id || null`: `0` is falsy. -/
def idOrNull : Option Int → Option Int
  | none => none
  | some v => if v = 0 then none else some v

/-- Embedding of `handleInitialize` (part_001 lines 1174-1182): the fixed
protocol version, server info and capability constants. -/
def handleInitializeResult : McpResult :=
  .initResult "2024-11-05" "mcp-http-bridge" "1.0.0"

/-- Embedding of the SSE-transport submission endpoint `POST /messages`
(part_001 lines 898-1024).  `sessionIdPresent`/`sessionFound` embed the
`session_id` query-parameter check and the registry lookup;
`toolsListOutcome`/`toolsCallOutcome` are oracles for the awaited
handlers (`handleToolsList`, `handleToolsCall`), whose thrown errors land
in the catch at lines 1010-1023.  Returns the HTTP reply of the POST and
the list of messages written to the session's SSE channel. -/
def messagesPost (sessionIdPresent sessionFound : Bool) (env : Envelope)
    (toolsListOutcome : Except RpcError (List ToolDescriptor))
    (toolsCallOutcome : Except RpcError String) :
    HttpReply × List SseMessage :=
  if ! sessionIdPresent then (⟨400, "Missing session_id parameter"⟩, [])
  else if ! sessionFound then (⟨404, "Session not found"⟩, [])
  else if env.jsonrpc ≠ "2.0" then
    (⟨202, "Accepted"⟩,
     [.errorResponse (idOrNull env.id) (-32600)
        "Invalid Request: jsonrpc must be 2.0"])
  else
    let handled : Except (Int × String) McpResult :=
      if env.method = "initialize" then .ok handleInitializeResult
      else if env.method = "notifications/initialized" ∨ env.method = "initialized" then
        .ok .emptyResult
      else if env.method = "tools/list" then
        match toolsListOutcome with
        | .ok ts => .ok (.toolsList ts)
        | .error e => .error (-32000, e.message)
      else if env.method = "tools/call" then
        match toolsCallOutcome with
        | .ok txt => .ok (.toolText txt)
        | .error e => .error (-32000, e.message)
      else .error (-32601, "Method not found: " ++ env.method)
    match handled with
    | .error (c, m) => (⟨202, "Accepted"⟩, [.errorResponse env.id c m])
    | .ok r =>
      match env.id with
      | none => (⟨202, "Accepted"⟩, [])
      | some i => (⟨202, "Accepted"⟩, [.response (some i) r])

/-- Row of the `customer_tokens` table (credential store). -/
structure CustomerTokenRow where
  session_id : String
  shop_id : String
  access_token : String
  expiresAt : Nat
deriving Repr, DecidableEq

/-- Observable server state touched by the synchronous dispatcher:
the session registry (`sessions` map keys), the aggregated tool catalog
(`mcpClient.tools`) and the credential store (`customer_tokens`). -/
structure BridgeState where
  sessions : List String
  toolCatalog : List ToolDescriptor
  customerTokens : List CustomerTokenRow
deriving Repr, DecidableEq

/-- Embedding of the `initialize` case of the synchronous dispatcher
`handleMcpMessage` (part_001 lines 1081-1088, likewise part_002 lines
152-159): the result comes from the pure `handleInitialize`, then a fresh
session id is generated and registered via `sessions.set(sessionId, ...)`
and echoed in the `Mcp-Session-Id` response header. -/
def syncInitialize (st : BridgeState) (newSessionId : String) :
    McpResult × BridgeState :=
  (handleInitializeResult, { st with sessions := newSessionId :: st.sessions })

/-! ## Authentication-required result (MCPClient, src/mcp-client.js) -/

/-- Row of the `customer_account_urls` table, as read by
`getCustomerAccountUrls` (snake_case column names). -/
structure UrlsRecord where
  authorization_url : String
  token_url : String
deriving Repr, DecidableEq

/-- Embedding of the URL built by `generateAuthUrl` (src/auth.js lines
65-107).  `stored` is the `getCustomerAccountUrls(shopId)` lookup; when
it is `none` the code stores freshly derived URLs but then reads
`urls.authorization_url` from the camelCase return value of
`storeCustomerAccountUrls`, which is JS `undefined` and stringifies to
"undefined" in the template literal.  `enc` abstracts the
`URLSearchParams` percent-encoding of the parameter values; the keys and
the fixed values `code` / `S256` are literal. -/
def generateAuthUrlString (stored : Option UrlsRecord) (enc : String → String)
    (clientId redirectUri scopes state codeChallenge : String) : String :=
  let base := match stored with
    | some u => u.authorization_url
    | none => "undefined"
  let query := "client_id=" ++ enc clientId ++ "&redirect_uri=" ++ enc redirectUri
    ++ "&response_type=code&scope=" ++ enc scopes ++ "&state=" ++ enc state
    ++ "&code_challenge=" ++ enc codeChallenge ++ "&code_challenge_method=S256"
  base ++ ("?" ++ query)

/-- Shape of the structured `{error: {...}}` value returned by
`_generateAuthRequiredResponse` (src/mcp-client.js lines 348-392):
`typ` is the `error.type` field, `authUrl` the optional `error.auth_url`
field, `configRequired` records whether the fallback branch carrying the
`config_required` hint was taken. -/
structure AuthRequiredError where
  typ : String
  authUrl : Option String
  sessionIdEcho : Option String
  configRequired : Bool
deriving Repr, DecidableEq

/-- Embedding of `_generateAuthRequiredResponse`: only when `shopId`,
`clientId` and `redirectUri` are all configured (JS truthiness) AND the
awaited `generateAuthUrl` call returns does the response carry
`auth_url`; a throw from `generateAuthUrl` — reachable, e.g. the
`storeCodeVerifier` INSERT violating the UNIQUE `state` constraint on a
duplicate `sessionId-shopId` — is caught at the `catch (authError)` and
falls through to the same fallback object without `auth_url` that the
unconfigured case returns.  `urlGenOk` is the oracle for that awaited
call's fate; `sessionId` is the already-defaulted
`options.sessionId || session_<now>` value; the scopes list is the fixed
pair joined by a space inside `generateAuthUrl`. -/
def generateAuthRequiredResponse (shopId clientId redirectUri sessionId : String)
    (stored : Option UrlsRecord) (enc : String → String) (codeChallenge : String)
    (urlGenOk : Bool) : AuthRequiredError :=
  if shopId ≠ "" && clientId ≠ "" && redirectUri ≠ "" then
    if urlGenOk then
      let state := sessionId ++ "-" ++ shopId
      let url := generateAuthUrlString stored enc clientId redirectUri
        "customer_read_customers customer_read_orders" state codeChallenge
      { typ := "auth_required", authUrl := some url,
        sessionIdEcho := some sessionId, configRequired := false }
    else
      { typ := "auth_required", authUrl := none,
        sessionIdEcho := none, configRequired := true }
  else
    { typ := "auth_required", authUrl := none,
      sessionIdEcho := none, configRequired := true }

/-- First step of `_callCustomerTool` (src/mcp-client.js lines 255-277):
with no resolvable token the structured auth-required value is returned
without contacting the endpoint; with a token the upstream call proceeds
under the Bearer-normalized Authorization header. -/
inductive CustomerCallStep where
  | authRequired (resp : AuthRequiredError)
  | invokeUpstream (authHeader : String)
deriving Repr, DecidableEq

/-- Embedding of the token branch of `_callCustomerTool`: `resolved` is
the `_getAccessToken` output, `urlGenOk` whether the `generateAuthUrl`
call inside `_generateAuthRequiredResponse` returns rather than
throws. -/
def callCustomerToolStep (resolved : Option String)
    (shopId clientId redirectUri sessionId : String)
    (stored : Option UrlsRecord) (enc : String → String) (codeChallenge : String)
    (urlGenOk : Bool) : CustomerCallStep :=
  match resolved with
  | none => .authRequired
      (generateAuthRequiredResponse shopId clientId redirectUri sessionId
        stored enc codeChallenge urlGenOk)
  | some t => .invokeUpstream (bearerNormalize t)

/-- Embedding of the `POST /api/call` status policy (src/routes/call.js
lines 26-73): a value resolved by `callTool` — the structured
auth-required object included — is sent with the default 200 status
inside `{success: true, ...}`; a thrown error yields 404 when its message
mentions "not found" and 500 otherwise. -/
def apiCallStatus {α : Type} (outcome : Except RpcError α) : Nat :=
  match outcome with
  | .ok _ => 200
  | .error e => if strContains e.message "not found" then 404 else 500

/-! ## tools/call argument normalization (`handleToolsCall`,
part_002 lines 306-324 / part_001 lines 1246-1264) -/

/-- The `arguments` field of a `tools/call` request: JS `undefined`, an
already-structured value, or a string payload.  `α` stands for the JSON
value domain. -/
inductive ToolArgsField (α : Type) where
  | absent
  | obj (v : α)
  | str (s : String)

/-- A string holding one single-quote character. -/
def singleQuote : String := String.singleton (Char.ofNat 39)

/-- A string holding one double-quote character. -/
def doubleQuote : String := String.singleton (Char.ofNat 34)

/-- Embedding of the Python-style transformation applied before the second
parse attempt: every single quote becomes a double quote, and the words
True/False/None become their JSON counterparts (all global replaces). -/
def pythonStyleFix (s : String) : String :=
  (((s.replace singleQuote doubleQuote).replace "True" "true").replace
    "False" "false").replace "None" "null"

/-- Embedding of the argument-parsing block of `handleToolsCall`:
`parse` abstracts `JSON.parse` (throw becomes `none`), `emptyObj` is the
literal `{}` fallback.  An absent field falls back to `{}` via
`toolArgs || {}`; a string is parsed, re-parsed after `pythonStyleFix` on
failure, and replaced by `{}` when both parses fail — the block never
rejects the request. -/
def parseToolArgs {α : Type} (parse : String → Option α) (emptyObj : α) :
    ToolArgsField α → α
  | .absent => emptyObj
  | .obj v => v
  | .str s =>
    match parse s with
    | some v => v
    | none =>
      match parse (pythonStyleFix s) with
      | some v => v
      | none => emptyObj

/-! ## Claim theorems -/

/-- C1: a customer-provider call whose first attempt fails with a
session-terminated signature, and which is not itself marked as a retry,
performs exactly one recovery cycle (clear cached customer catalog,
reconnect, re-issue the call as a retry); a successful retry's result is
returned, and a retry that fails again — with a session-terminated
signature in particular — surfaces the original error with no further
attempt: exactly two `tools/call` requests are ever issued. -/
theorem callCustomerTool_retries_exactly_once {α β : Type}
    (env : CustomerCallEnv α) (listOutcome : Nat → CallOutcome β)
    (e0 f0 : RpcError)
    (h0 : env.callOutcome 0 = .err e0)
    (hterm : isSessionTerminatedError e0 = true)
    (hrec : env.reconnectOutcome = .ok ())
    (g0 : listOutcome 0 = .err f0)
    (gterm : isSessionTerminatedError f0 = true) :
    ((callCustomerTool env).recoveries = 1 ∧
     (callCustomerTool env).attempts = 2 ∧
     (∀ r, env.callOutcome 1 = .ok r → (callCustomerTool env).result = .ok r) ∧
     (∀ e1, env.callOutcome 1 = .err e1 →
       (callCustomerTool env).result = .error e0)) ∧
    ((connectCustomerList listOutcome).recoveries = 1 ∧
     (connectCustomerList listOutcome).attempts = 2 ∧
     (∀ r, listOutcome 1 = .ok r →
       (connectCustomerList listOutcome).result = .ok r) ∧
     (∀ f1, listOutcome 1 = .err f1 →
       (connectCustomerList listOutcome).result = .error f0)) := by
  constructor
  · cases h1 : env.callOutcome 1 with
    | ok r =>
      simp [callCustomerTool, callCustomerToolAsRetry, h0, hterm, hrec, h1]
    | err e1 =>
      simp [callCustomerTool, callCustomerToolAsRetry, h0, hterm, hrec, h1]
  · cases g1 : listOutcome 1 with
    | ok r =>
      simp [connectCustomerList, connectCustomerListAsRetry, g0, gterm, g1]
    | err f1 =>
      simp [connectCustomerList, connectCustomerListAsRetry, g0, gterm, g1]

/-- Concrete environment for the C1 witness: both attempts fail with
session-terminated messages, the reconnect succeeds. -/
def c1Env : CustomerCallEnv Unit where
  callOutcome := fun k =>
    if k = 0 then .err ⟨"Session terminated", none⟩
    else .err ⟨"MCP request failed: 400 session expired", none⟩
  reconnectOutcome := .ok ()

/-- Concrete `tools/list` oracle for the C1 witness: the first listing
fails with a session-not-found message, the retry succeeds. -/
def c1ListEnv : Nat → CallOutcome (List ToolDescriptor) := fun k =>
  if k = 0 then .err ⟨"session not found", some (-32600)⟩
  else .ok [⟨"T", "d", "s"⟩]

/-- Witness for C1 at concrete environments for both paths. -/
theorem callCustomerTool_retries_exactly_once_witness :
    ((callCustomerTool c1Env).recoveries = 1 ∧
     (callCustomerTool c1Env).attempts = 2 ∧
     (callCustomerTool c1Env).result = .error ⟨"Session terminated", none⟩) ∧
    ((connectCustomerList c1ListEnv).recoveries = 1 ∧
     (connectCustomerList c1ListEnv).attempts = 2 ∧
     (connectCustomerList c1ListEnv).result = .ok [⟨"T", "d", "s"⟩]) := by
  have h := callCustomerTool_retries_exactly_once c1Env c1ListEnv
    ⟨"Session terminated", none⟩ ⟨"session not found", some (-32600)⟩
    rfl (by decide) rfl rfl (by decide)
  refine ⟨⟨h.1.1, h.1.2.1, ?_⟩, ⟨h.2.1, h.2.2.1, ?_⟩⟩
  · exact h.1.2.2.2 ⟨"MCP request failed: 400 session expired", none⟩ rfl
  · exact h.2.2.2.1 [⟨"T", "d", "s"⟩] rfl

/-- C2: under the UNIQUE constraint on `state` (no two rows share a
state), a stored code verifier is retrievable at most once — the first
successful lookup deletes the row, the second lookup returns `none`, and
a second `/auth/callback` completion with the same `state` therefore
fails as invalid/expired state regardless of the token-exchange
behavior. -/
theorem getCodeVerifier_single_use (db : List VerifierRecord) (s : String)
    (now : Nat) (r : VerifierRecord)
    (hstates : (db.map VerifierRecord.state).Nodup)
    (h1 : (getCodeVerifier db s now).1 = some r) :
    (getCodeVerifier (getCodeVerifier db s now).2 s now).1 = none ∧
    (∀ code exchange, code ≠ "" → s ≠ "" →
      (authCallback (getCodeVerifier db s now).2 code s now exchange).1 =
        CallbackOutcome.invalidState) := by
  cases hf : db.find? (fun x => x.state == s && decide (now < x.expiresAt)) with
  | none =>
    exfalso
    unfold getCodeVerifier at h1
    rw [hf] at h1
    exact Option.noConfusion h1
  | some r0 =>
    have hr0 : r0 = r := by
      unfold getCodeVerifier at h1
      rw [hf] at h1
      exact Option.some.inj h1
    subst hr0
    have hdb2 : (getCodeVerifier db s now).2 =
        db.filter (fun x => x.id != r0.id) := by
      unfold getCodeVerifier
      rw [hf]
    have hmem : r0 ∈ db := List.mem_of_find?_eq_some hf
    have hpr0 := List.find?_some hf
    have hstate0 : r0.state = s := by
      have h' := (Bool.and_eq_true _ _).mp hpr0
      simpa using h'.1
    have hnone : (db.filter (fun x => x.id != r0.id)).find?
        (fun x => x.state == s && decide (now < x.expiresAt)) = none := by
      rw [List.find?_eq_none]
      intro x hx hpx
      have hx' := List.mem_filter.mp hx
      have hxid : x.id ≠ r0.id := by simpa using hx'.2
      have hxstate : x.state = s := by
        have h' := (Bool.and_eq_true _ _).mp hpx
        simpa using h'.1
      have hxr : x = r0 :=
        List.inj_on_of_nodup_map hstates hx'.1 hmem (by rw [hxstate, hstate0])
      exact hxid (by rw [hxr])
    constructor
    · rw [hdb2]
      unfold getCodeVerifier
      rw [hnone]
    · intro code exchange hcode hs
      rw [hdb2]
      simp [authCallback, getCodeVerifier, hnone, hcode, hs]

/-- Concrete single-row verifier table for the C2 witness. -/
def c2Db : List VerifierRecord := [⟨1, "sess-shop.myshopify.com", "ver", 100⟩]

/-- Witness for C2 at a concrete table: the first lookup returns the row,
the second returns nothing, and a replayed callback fails as invalid
state. -/
theorem getCodeVerifier_single_use_witness :
    (getCodeVerifier c2Db "sess-shop.myshopify.com" 50).1 =
      some ⟨1, "sess-shop.myshopify.com", "ver", 100⟩ ∧
    (getCodeVerifier (getCodeVerifier c2Db "sess-shop.myshopify.com" 50).2
        "sess-shop.myshopify.com" 50).1 = none ∧
    (authCallback (getCodeVerifier c2Db "sess-shop.myshopify.com" 50).2
        "authcode" "sess-shop.myshopify.com" 50
        (fun _ _ => Except.ok ⟨"tok", 3600⟩)).1 = CallbackOutcome.invalidState := by
  have h := getCodeVerifier_single_use c2Db "sess-shop.myshopify.com" 50
    ⟨1, "sess-shop.myshopify.com", "ver", 100⟩ (by decide) (by decide)
  exact ⟨by decide, h.1,
    h.2 "authcode" (fun _ _ => Except.ok ⟨"tok", 3600⟩) (by decide) (by decide)⟩

/-- C3: credential resolution follows the fixed precedence chain with
first match winning — explicit call-context token, then store lookup by
session key, then store lookup by shop key, then the instance token, else
absent — and an explicit token always yields a provider call authorized
with that token (Bearer-normalized), whatever the store holds. -/
theorem getAccessToken_precedence
    (lookupSession lookupShop : String → Option TokenRecord)
    (optAccessToken optSessionId shopId instanceToken : String) :
    (optAccessToken ≠ "" →
      getAccessToken lookupSession lookupShop optAccessToken optSessionId
        shopId instanceToken = some optAccessToken ∧
      authHeaderOfToken (getAccessToken lookupSession lookupShop optAccessToken
        optSessionId shopId instanceToken) = some (bearerNormalize optAccessToken)) ∧
    (optAccessToken = "" →
      ∀ rec, optSessionId ≠ "" → lookupSession optSessionId = some rec →
        rec.access_token ≠ "" →
        getAccessToken lookupSession lookupShop optAccessToken optSessionId
          shopId instanceToken = some rec.access_token) ∧
    (optAccessToken = "" →
      (optSessionId = "" ∨ ∀ rec, lookupSession optSessionId = some rec →
        rec.access_token = "") →
      (optSessionId ≠ "" → lookupSession optSessionId = none →
        ∀ rec, shopId ≠ "" → lookupShop shopId = some rec →
          rec.access_token ≠ "" →
          getAccessToken lookupSession lookupShop optAccessToken optSessionId
            shopId instanceToken = some rec.access_token)) ∧
    ((optSessionId = "" ∨ lookupSession optSessionId = none) →
      (shopId = "" ∨ lookupShop shopId = none) →
      optAccessToken = "" →
      getAccessToken lookupSession lookupShop optAccessToken optSessionId
        shopId instanceToken =
        (if instanceToken ≠ "" then some instanceToken else none)) := by
  refine ⟨?_, ?_, ?_, ?_⟩
  · intro h
    constructor
    · simp [getAccessToken, h]
    · simp [getAccessToken, h, authHeaderOfToken]
  · intro h rec hsid hlook htok
    simp [getAccessToken, h, hsid, hlook, htok]
  · intro h _ hsid hlook rec hshop hlooks htok
    simp [getAccessToken, h, hsid, hlook, hshop, hlooks, htok]
  · intro hsess hshop h
    subst h
    cases hsess with
    | inl h0 =>
      cases hshop with
      | inl h1 => simp [getAccessToken, h0, h1]
      | inr h1 => simp [getAccessToken, h0, h1]
    | inr h0 =>
      cases hshop with
      | inl h1 => simp [getAccessToken, h0, h1]
      | inr h1 => simp [getAccessToken, h0, h1]

/-- Witness for C3: with an explicit token "A" in the call context while
the store holds "B" for that session, resolution returns "A" and the
provider call carries `Authorization: Bearer A`. -/
theorem getAccessToken_precedence_witness :
    getAccessToken (fun _ => some ⟨"B"⟩) (fun _ => none) "A" "sess1" "" "" =
      some "A" ∧
    authHeaderOfToken
      (getAccessToken (fun _ => some ⟨"B"⟩) (fun _ => none) "A" "sess1" "" "") =
      some "Bearer A" := by
  have h := (getAccessToken_precedence (fun _ => some ⟨"B"⟩) (fun _ => none)
    "A" "sess1" "" "").1 (by decide)
  refine ⟨h.1, ?_⟩
  rw [h.2]
  decide

/-- C4 counterexample: the state composed from sessionId "a-b" and shopId
"c" parses back to sessionId "a" and shopId "b" — not the original pair,
refuting round-trip reversibility for arbitrary identifiers. -/
theorem parseState_not_reversible :
    parseState (buildState "a-b".toList "c".toList) =
        (some "a".toList, some "b".toList) ∧
    (some "a".toList, some "b".toList) ≠
        (some "a-b".toList, some "c".toList) := by
  constructor
  · decide
  · decide

/-- C4 (amended): the composed state is reversible exactly on
dash-free identifiers — whenever neither the sessionId nor the shopId
contains the dash separator, the callback's split recovers both
originals. -/
theorem parseState_buildState_of_no_dash
    {sessionId shopId : List Char}
    (hs : '-' ∉ sessionId) (hp : '-' ∉ shopId) :
    parseState (buildState sessionId shopId) = (some sessionId, some shopId) := by
  unfold parseState
  rw [splitOnDash_buildState hs hp]
  rfl

/-- Witness for the amended C4 at concrete dash-free identifiers. -/
theorem parseState_buildState_of_no_dash_witness :
    parseState (buildState "sess1".toList "shop.myshopify.com".toList) =
      (some "sess1".toList, some "shop.myshopify.com".toList) := by
  exact parseState_buildState_of_no_dash (by decide) (by decide)

/-! ### String nonemptiness helpers -/

theorem string_eq_empty_of_length (s : String) (h : s.length = 0) : s = "" := by
  cases s with
  | mk data =>
    cases data with
    | nil => rfl
    | cons c cs => simp [String.length] at h

theorem string_append_ne_right (a b : String) (hb : b ≠ "") : a ++ b ≠ "" := by
  intro h
  apply hb
  have h2 := congrArg String.length h
  rw [String.length_append] at h2
  exact string_eq_empty_of_length b (by simpa using Nat.eq_zero_of_add_eq_zero_left h2)

theorem string_append_ne_left (a b : String) (ha : a ≠ "") : a ++ b ≠ "" := by
  intro h
  apply ha
  have h2 := congrArg String.length h
  rw [String.length_append] at h2
  exact string_eq_empty_of_length a (by simpa using Nat.eq_zero_of_add_eq_zero_right h2)

/-- C5 counterexample: with an unconfigured shop id the no-credential
path still returns a structured `auth_required` value, but it carries no
`auth_url` at all (the `config_required` fallback), and the REST layer
sends any resolved result — this one included — with status 200, not an
unauthorized status: the claim's "auth_url: non-empty string" and
"status reflects unauthorized" both fail at this input. -/
theorem authRequired_counterexample :
    callCustomerToolStep none "" "client1" "https://bridge/auth/callback"
        "sess1" none (fun v => v) "cc" true =
      CustomerCallStep.authRequired ⟨"auth_required", none, none, true⟩ ∧
    apiCallStatus (Except.ok (CustomerCallStep.authRequired
        ⟨"auth_required", none, none, true⟩) : Except RpcError CustomerCallStep)
      = 200 ∧
    (200 : Nat) ≠ 401 := by
  exact ⟨rfl, rfl, by decide⟩

/-- C5 (amended): a customer-scoped call with no resolvable credential
always returns the structured `auth_required` result instead of
contacting the provider or throwing, and the REST layer serves it with
the normal 200 status (never a generic 500); the result carries a
non-empty `auth_url` exactly when the shop id, client id and redirect
URI are all configured and the awaited `generateAuthUrl` call returns
rather than throws — otherwise (missing configuration, or a
`generateAuthUrl` failure such as the UNIQUE-state INSERT violation,
caught at `catch (authError)`) it carries the `config_required`-style
fallback and no URL. -/
theorem authRequired_structured
    (shopId clientId redirectUri sessionId codeChallenge : String)
    (stored : Option UrlsRecord) (enc : String → String) (urlGenOk : Bool) :
    ∃ resp,
      callCustomerToolStep none shopId clientId redirectUri sessionId stored
          enc codeChallenge urlGenOk = CustomerCallStep.authRequired resp ∧
      resp.typ = "auth_required" ∧
      apiCallStatus (Except.ok (CustomerCallStep.authRequired resp)
          : Except RpcError CustomerCallStep) = 200 ∧
      (shopId ≠ "" → clientId ≠ "" → redirectUri ≠ "" → urlGenOk = true →
        ∃ u, resp.authUrl = some u ∧ u ≠ "") ∧
      (shopId = "" ∨ clientId = "" ∨ redirectUri = "" ∨ urlGenOk = false →
        resp.authUrl = none ∧ resp.configRequired = true) := by
  refine ⟨_, rfl, ?_, rfl, ?_, ?_⟩
  · unfold generateAuthRequiredResponse
    split
    · split <;> rfl
    · rfl
  · intro h1 h2 h3 h4
    simp only [generateAuthRequiredResponse]
    rw [if_pos (by simp [h1, h2, h3]), if_pos h4]
    refine ⟨_, rfl, ?_⟩
    unfold generateAuthUrlString
    apply string_append_ne_right
    apply string_append_ne_left
    decide
  · intro h
    unfold generateAuthRequiredResponse
    rcases h with h | h | h | h
    · rw [if_neg (by simp [h])]
      exact ⟨rfl, rfl⟩
    · rw [if_neg (by simp [h])]
      exact ⟨rfl, rfl⟩
    · rw [if_neg (by simp [h])]
      exact ⟨rfl, rfl⟩
    · subst h
      split
      · exact ⟨rfl, rfl⟩
      · exact ⟨rfl, rfl⟩

/-- Witness for the amended C5 at a fully configured client whose
`generateAuthUrl` call succeeds. -/
theorem authRequired_structured_witness :
    ∃ resp,
      callCustomerToolStep none "shop.myshopify.com" "client1"
          "https://bridge/auth/callback" "sess1" none (fun v => v) "cc" true =
        CustomerCallStep.authRequired resp ∧
      resp.typ = "auth_required" ∧
      (∃ u, resp.authUrl = some u ∧ u ≠ "") := by
  obtain ⟨resp, heq, htyp, _, hurl, _⟩ := authRequired_structured
    "shop.myshopify.com" "client1" "https://bridge/auth/callback" "sess1" "cc"
    none (fun v => v) true
  exact ⟨resp, heq, htyp, hurl (by decide) (by decide) (by decide) rfl⟩

/-- C6 counterexample: after the storefront lists tool "X" and the
customer server then lists a tool of the same name, the aggregate keeps
both entries (names are not unique across providers) and a call to "X"
is dispatched to the storefront — the earlier-registered provider — not
to the later one. -/
theorem aggregate_conflict_counterexample :
    (connectCustomerUpdate ⟨[⟨"X", "d", "s"⟩], [], [⟨"X", "d", "s"⟩]⟩
        [⟨"X", "d2", "s2"⟩]).tools = [⟨"X", "d", "s"⟩, ⟨"X", "d2", "s2"⟩] ∧
    dispatchTool (connectCustomerUpdate ⟨[⟨"X", "d", "s"⟩], [], [⟨"X", "d", "s"⟩]⟩
        [⟨"X", "d2", "s2"⟩]) "X" = some Provider.storefront ∧
    some Provider.storefront ≠ some Provider.customer := by
  refine ⟨by decide, by decide, by decide⟩

/-- C6 (amended): within the customer provider a re-listing is a
replacement — every aggregate entry whose name belonged to the previous
customer batch is gone unless it is part of the new batch, and the whole
new batch is present; across providers, however, names are not
deduplicated, and on a storefront/customer conflict the dispatcher
routes to the storefront provider because its list is consulted
first. -/
theorem customer_relist_replaces_storefront_first :
    (∀ (s : ClientState) (newTools : List ToolDescriptor) (t : ToolDescriptor),
      t ∈ (connectCustomerUpdate s newTools).tools →
      t.name ∈ s.customerTools.map ToolDescriptor.name → t ∈ newTools) ∧
    (∀ (s : ClientState) (newTools : List ToolDescriptor),
      ∀ t ∈ newTools, t ∈ (connectCustomerUpdate s newTools).tools) ∧
    (∀ (s : ClientState) (name : String),
      s.storefrontTools.any (fun t => t.name == name) = true →
      dispatchTool s name = some Provider.storefront) := by
  refine ⟨?_, ?_, ?_⟩
  · intro s newTools t ht hname
    unfold connectCustomerUpdate at ht
    simp only [List.mem_append] at ht
    cases ht with
    | inl hf =>
      exfalso
      have h' := List.mem_filter.mp hf
      have hnot : ¬ t.name ∈ s.customerTools.map ToolDescriptor.name := by
        simpa using h'.2
      exact hnot hname
    | inr hn => exact hn
  · intro s newTools t ht
    unfold connectCustomerUpdate
    simp [ht]
  · intro s name h
    unfold dispatchTool
    rw [if_pos h]

/-- Witness for the amended C6: a re-listed customer tool name is owned
by the new batch, and a conflicted name goes to the storefront. -/
theorem customer_relist_replaces_storefront_first_witness :
    ((⟨"Y", "d2", "s2"⟩ : ToolDescriptor) ∈
      (connectCustomerUpdate ⟨[], [⟨"Y", "d", "s"⟩], [⟨"Y", "d", "s"⟩]⟩
        [⟨"Y", "d2", "s2"⟩]).tools) ∧
    dispatchTool ⟨[⟨"Z", "d", "s"⟩], [⟨"Z", "d9", "s9"⟩], []⟩ "Z" =
      some Provider.storefront := by
  refine ⟨?_, ?_⟩
  · exact customer_relist_replaces_storefront_first.2.1
      ⟨[], [⟨"Y", "d", "s"⟩], [⟨"Y", "d", "s"⟩]⟩ [⟨"Y", "d2", "s2"⟩]
      ⟨"Y", "d2", "s2"⟩ (by decide)
  · exact customer_relist_replaces_storefront_first.2.2
      ⟨[⟨"Z", "d", "s"⟩], [⟨"Z", "d9", "s9"⟩], []⟩ "Z" (by decide)

/-- Identifier carried by an SSE-channel message (the `id` field of the
JSON-RPC response or error object). -/
def sseMessageId : SseMessage → Option Int
  | .response i _ => i
  | .errorResponse i _ _ => i

/-- C7: a protocol envelope POSTed to `/messages` with a session id that
names a registered SSE session is always acknowledged with the fixed
202 "Accepted" HTTP reply — whatever the envelope and whatever the
handlers do (result, method-not-found, or thrown error) — and for every
well-formed request carrying an id, exactly one JSON-RPC result or error
object bearing that id is written to the session's SSE channel instead
of the HTTP body. -/
theorem messagesPost_always_accepted (env : Envelope)
    (toolsListOutcome : Except RpcError (List ToolDescriptor))
    (toolsCallOutcome : Except RpcError String) :
    (messagesPost true true env toolsListOutcome toolsCallOutcome).1 =
      ⟨202, "Accepted"⟩ ∧
    (env.jsonrpc = "2.0" → ∀ i, env.id = some i →
      ∃ m, (messagesPost true true env toolsListOutcome toolsCallOutcome).2 = [m] ∧
        sseMessageId m = some i) := by
  by_cases hj : env.jsonrpc = "2.0"
  · by_cases h1 : env.method = "initialize"
    · cases hid : env.id <;>
        simp [messagesPost, sseMessageId, hj, h1, hid]
    · by_cases h2 : env.method = "notifications/initialized" ∨
          env.method = "initialized"
      · cases hid : env.id <;>
          simp [messagesPost, sseMessageId, hj, h1, h2, hid]
      · by_cases h3 : env.method = "tools/list"
        · cases ho : toolsListOutcome <;> cases hid : env.id <;>
            simp [messagesPost, sseMessageId, hj, h1, h2, h3, hid, ho]
        · by_cases h4 : env.method = "tools/call"
          · cases ho : toolsCallOutcome <;> cases hid : env.id <;>
              simp [messagesPost, sseMessageId, hj, h1, h2, h3, h4, hid, ho]
          · cases hid : env.id <;>
              simp [messagesPost, sseMessageId, hj, h1, h2, h3, h4, hid]
  · simp [messagesPost, hj]

/-- Witness for C7: a concrete `tools/list` request over a registered
session whose handler throws is still acknowledged with 202 and the
error object goes to the SSE channel under the request id. -/
theorem messagesPost_always_accepted_witness :
    (messagesPost true true ⟨"2.0", some 7, "tools/list"⟩
        (Except.error ⟨"boom", none⟩) (Except.ok "r")).1 = ⟨202, "Accepted"⟩ ∧
    ∃ m, (messagesPost true true ⟨"2.0", some 7, "tools/list"⟩
        (Except.error ⟨"boom", none⟩) (Except.ok "r")).2 = [m] ∧
      sseMessageId m = some 7 := by
  have h := messagesPost_always_accepted ⟨"2.0", some 7, "tools/list"⟩
    (Except.error ⟨"boom", none⟩) (Except.ok "r")
  exact ⟨h.1, h.2 rfl 7 rfl⟩

/-- C8 counterexample: handling `initialize` on the synchronous
transport is not state-free — starting from an empty session registry,
the registry afterwards contains the freshly generated session id, so
the before and after states differ. -/
theorem syncInitialize_changes_state :
    (syncInitialize ⟨[], [], []⟩ "fresh-session").2 ≠
      (⟨[], [], []⟩ : BridgeState) := by
  decide

/-- C8 (amended): `initialize` returns the fixed protocol version,
server identity and capability flags, and leaves the aggregated tool
catalog and the credential store untouched; its only state effect is
registering the freshly generated session id in the session
registry. -/
theorem syncInitialize_result_and_frame (st : BridgeState) (sid : String) :
    (syncInitialize st sid).1 =
      McpResult.initResult "2024-11-05" "mcp-http-bridge" "1.0.0" ∧
    (syncInitialize st sid).2.toolCatalog = st.toolCatalog ∧
    (syncInitialize st sid).2.customerTokens = st.customerTokens ∧
    (syncInitialize st sid).2.sessions = sid :: st.sessions :=
  ⟨rfl, rfl, rfl, rfl⟩

/-- C9: a full catalog refresh never fails as a whole — `connectAll`
runs both provider listings under `Promise.allSettled` and always
returns a state (embedded as a total function), whose aggregate is
exactly the concatenation of the successful listings; in particular
every tool of every provider whose listing succeeded is present, however
the other provider fared. -/
theorem connectAll_partial_availability
    (storefrontOutcome customerOutcome : Except RpcError (List ToolDescriptor)) :
    (connectAllModel storefrontOutcome customerOutcome).tools =
      (match storefrontOutcome with | .ok ts => ts | .error _ => []) ++
      (match customerOutcome with | .ok ts => ts | .error _ => []) ∧
    (∀ ts, storefrontOutcome = .ok ts → ∀ t ∈ ts,
      t ∈ (connectAllModel storefrontOutcome customerOutcome).tools) ∧
    (∀ ts, customerOutcome = .ok ts → ∀ t ∈ ts,
      t ∈ (connectAllModel storefrontOutcome customerOutcome).tools) := by
  cases storefrontOutcome <;> cases customerOutcome <;>
    simp [connectAllModel, connectStorefrontUpdate] <;>
    exact ⟨fun t ht => Or.inl ht, fun t ht => Or.inr ht⟩

/-- Witness for C9: with the storefront listing rejected and the
customer listing succeeding, the customer's tool is in the aggregate. -/
theorem connectAll_partial_availability_witness :
    (⟨"X", "d", "s"⟩ : ToolDescriptor) ∈
      (connectAllModel (Except.error ⟨"storefront down", none⟩)
        (Except.ok [⟨"X", "d", "s"⟩])).tools :=
  (connectAll_partial_availability (Except.error ⟨"storefront down", none⟩)
      (Except.ok [⟨"X", "d", "s"⟩])).2.2
    [⟨"X", "d", "s"⟩] rfl ⟨"X", "d", "s"⟩ (by decide)

/-- C10: the argument-parsing block of `handleToolsCall` is total on
string payloads — a string is JSON-parsed, re-parsed after the
Python-style fix-up on failure, and replaced by the empty object when
both parses fail, so a malformed arguments string never rejects the
request; an absent field also falls back to the empty object. -/
theorem parseToolArgs_total_fallback {α : Type} (parse : String → Option α)
    (emptyObj : α) (s : String) :
    (∀ v, parse s = some v → parseToolArgs parse emptyObj (.str s) = v) ∧
    (parse s = none → ∀ v, parse (pythonStyleFix s) = some v →
      parseToolArgs parse emptyObj (.str s) = v) ∧
    (parse s = none → parse (pythonStyleFix s) = none →
      parseToolArgs parse emptyObj (.str s) = emptyObj) ∧
    parseToolArgs parse emptyObj .absent = emptyObj := by
  refine ⟨?_, ?_, ?_, rfl⟩
  · intro v hv
    simp [parseToolArgs, hv]
  · intro h v hv
    simp [parseToolArgs, h, hv]
  · intro h h2
    simp [parseToolArgs, h, h2]

/-- Witness for C10: with a parser that rejects everything, a malformed
string argument still yields the empty object. -/
theorem parseToolArgs_total_fallback_witness :
    parseToolArgs (fun _ => (none : Option Nat)) 0 (.str "not json at all") = 0 :=
  (parseToolArgs_total_fallback (fun _ => (none : Option Nat)) 0
    "not json at all").2.2.1 rfl rfl

end McpBridge
